import Mathlib

/-!
Verification of the moderation-resolution and session-configuration layer of
the Aurora Compass client, embedded shallowly from the TypeScript source.

The `Provider` resolve logic, `configureModerationForGuest`,
`configureModerationForAccount`, `switchToBskyAppLabeler` and
`trySwitchToTestAppLabeler` are translated from the source files.  Collaborator
modules that the source imports but whose implementations are not part of the
studied tree (`getNoAppLabelers`, `readLabelers`,
`configureAdditionalModerationAuthorities`, `IS_TEST_USER`, handle resolution,
and the Retry Engine) are modelled from the specification and passed in as
explicit inputs, so every theorem quantifies over their possible behaviours.
-/

/-- A decentralized identifier, compared by exact string equality. -/
abbrev Did := String

/-- Interpreted label definitions keyed by labeler DID. -/
abbrev LabelDefs := List (Did × List String)

/-- Per-account moderation preferences, as stored in the preferences query
result (`prefs.data?.moderationPrefs`). -/
structure ModerationPrefs where
  adultContentEnabled : Bool
  labels : List (String × String)
  mutedWords : List String
  hiddenPosts : List String
  labelers : List Did
deriving DecidableEq, Repr

/-- The effective moderation configuration (`ModerationOpts` in the source):
acting user DID, merged preferences, and the label-definition catalog. -/
structure ModerationOpts where
  userDid : Option Did
  prefs : ModerationPrefs
  labelDefs : LabelDefs
deriving DecidableEq, Repr

/-- The value computed by the `Provider` component each time its inputs change:

* if the devtool override context is present, it is returned unchanged;
* if the moderation preferences have not loaded, the result is `none`
  (the provider publishes `undefined`);
* otherwise the preferences are spread into the context, with `labelers`
  taken from the user preferences only and `hiddenPosts` defaulted to `[]`
  when absent. -/
def providerValue (override : Option ModerationOpts) (userDid : Option Did)
    (moderationPrefs : Option ModerationPrefs)
    (hiddenPosts : Option (List String)) (labelDefs : LabelDefs) :
    Option ModerationOpts :=
  match override with
  | some o => some o
  | none =>
    match moderationPrefs with
    | none => none
    | some mp =>
      some
        { userDid := userDid
          prefs :=
            { mp with
              labelers := mp.labelers
              hiddenPosts := hiddenPosts.getD [] }
          labelDefs := labelDefs }

/-- Keep the first occurrence of every DID, dropping later duplicates
(the semantics of building a JavaScript `Set` from a list and reading it
back in insertion order). -/
def dedupByDid : List Did → List Did
  | [] => []
  | d :: rest => d :: dedupByDid (rest.filter (fun x => x ≠ d))
termination_by l => l.length
decreasing_by
  simp only [List.length_cons]
  exact Nat.lt_succ_of_le (List.length_filter_le _ _)

/-- Modelled from the spec: the merged labeler list starts from the stored
labeler subscriptions and appends the locally configured additional moderation
authorities, deduplicating by DID and preserving first-seen order.  The
implementation of `configureAdditionalModerationAuthorities` is a collaborator
module not present in the studied tree. -/
def mergedLabelerList (stored additional : List Did) : List Did :=
  dedupByDid (stored ++ additional)

theorem dedupByDid_spec : ∀ n : Nat, ∀ l : List Did, l.length ≤ n →
    (dedupByDid l).Nodup ∧ List.Sublist (dedupByDid l) l ∧
      ∀ x, x ∈ dedupByDid l ↔ x ∈ l := by
  intro n
  induction n with
  | zero =>
    intro l hl
    have : l = [] := List.eq_nil_of_length_eq_zero (Nat.le_zero.mp hl)
    subst this
    simp [dedupByDid]
  | succ n ih =>
    intro l hl
    match l with
    | [] => simp [dedupByDid]
    | d :: rest =>
      rw [dedupByDid]
      have hlen : (rest.filter (fun x => x ≠ d)).length ≤ n :=
        le_trans (List.length_filter_le _ _)
          (Nat.le_of_succ_le_succ (by simpa using hl))
      obtain ⟨hnd, hsub, hmem⟩ := ih (rest.filter (fun x => x ≠ d)) hlen
      refine ⟨?_, ?_, ?_⟩
      · refine List.nodup_cons.mpr ⟨?_, hnd⟩
        intro hdm
        have := List.mem_filter.mp ((hmem d).mp hdm)
        simp at this
      · exact List.Sublist.cons₂ d (hsub.trans (List.filter_sublist rest))
      · intro x
        constructor
        · intro hx
          rcases List.mem_cons.mp hx with h | h
          · exact h ▸ List.mem_cons_self d rest
          · exact List.mem_cons_of_mem d
              (List.mem_of_mem_filter ((hmem x).mp h))
        · intro hx
          rcases List.mem_cons.mp hx with h | h
          · exact h ▸ List.mem_cons_self d _
          · by_cases hxd : x = d
            · exact hxd ▸ List.mem_cons_self d _
            · exact List.mem_cons_of_mem d ((hmem x).mpr
                (List.mem_filter.mpr ⟨h, by simpa using hxd⟩))

theorem mem_dedupByDid (x : Did) (l : List Did) : x ∈ dedupByDid l ↔ x ∈ l :=
  (dedupByDid_spec l.length l le_rfl).2.2 x

theorem nodup_dedupByDid (l : List Did) : (dedupByDid l).Nodup :=
  (dedupByDid_spec l.length l le_rfl).1

theorem sublist_dedupByDid (l : List Did) : List.Sublist (dedupByDid l) l :=
  (dedupByDid_spec l.length l le_rfl).2.1

example : mergedLabelerList ["did:plc:a", "did:plc:b"] ["did:plc:b", "did:plc:c"]
    = ["did:plc:a", "did:plc:b", "did:plc:c"] := by
  simp [mergedLabelerList, dedupByDid]

/-- The default public labeling authority shipped with the protocol library. -/
def BSKY_LABELER_DID : Did := "did:plc:ar7c4by46qjdydhdevvrndac"

/-- The static labeler configuration of the protocol agent: the set of app
labelers sent with requests. -/
structure BskyAgentConfig where
  appLabelers : List Did
deriving DecidableEq, Repr

/-- `switchToBskyAppLabeler`: configure the app labelers to the default public
authority, or to the empty list when the no-app-labelers preference suppresses
it.  `getNoAppLabelers` itself is a collaborator module not in the studied
tree; its result is taken as the boolean input `noAppLabelers`. -/
def switchToBskyAppLabeler (noAppLabelers : Bool) : BskyAgentConfig :=
  { appLabelers := if noAppLabelers then [] else [BSKY_LABELER_DID] }

/-- Modelled from the spec: `configureAdditionalModerationAuthorities` (a
collaborator module not in the studied tree) appends the locally configured
additional moderation authorities to the current app-labeler configuration,
deduplicating by DID and preserving first-seen order. -/
def configureAdditionalModerationAuthorities (additional : List Did)
    (cfg : BskyAgentConfig) : BskyAgentConfig :=
  { appLabelers := mergedLabelerList cfg.appLabelers additional }

/-- `configureModerationForGuest`: switch to the default app labeler, then
configure the additional moderation authorities. -/
def configureModerationForGuest (noAppLabelers : Bool)
    (additional : List Did) : BskyAgentConfig :=
  configureAdditionalModerationAuthorities additional
    (switchToBskyAppLabeler noAppLabelers)

/-- `trySwitchToTestAppLabeler`: resolve the well-known test handle
`mod-authority.test`; on success the resolved DID becomes the sole app
labeler, on failure (the rejection is caught and becomes `none`) the current
configuration is left unchanged.  Handle resolution is a network collaborator,
taken as the input function `resolveHandle`. -/
def trySwitchToTestAppLabeler (resolveHandle : String → Option Did)
    (cfg : BskyAgentConfig) : BskyAgentConfig :=
  match resolveHandle "mod-authority.test" with
  | some did => { appLabelers := [did] }
  | none => cfg

/-- An authenticated session account. -/
structure SessionAccount where
  did : Did
  handle : String
deriving DecidableEq, Repr

/-- The observable outcome of `configureModerationForAccount`: the final app
labelers, the labelers header configured on the agent (if any), and whether
the test-labeler substitution was attempted. -/
structure AccountConfigResult where
  appLabelers : List Did
  labelersHeader : Option (List Did)
  testResolveAttempted : Bool
deriving DecidableEq, Repr

/-- `configureModerationForAccount`: switch to the default app labeler; when
the account handle is a test-user handle, attempt the test-labeler
substitution; read the stored per-account labeler list, swallowing any
failure (`.catch` yields no value, and then no labelers header is
configured); finally configure the additional moderation authorities.
`IS_TEST_USER` and `readLabelers` are collaborator modules not in the studied
tree, taken as the inputs `isTestUser` and `readLabelers`. -/
def configureModerationForAccount (isTestUser : String → Bool)
    (resolveHandle : String → Option Did)
    (readLabelers : Did → Except String (List Did))
    (noAppLabelers : Bool) (additional : List Did)
    (account : SessionAccount) : AccountConfigResult :=
  let cfg := switchToBskyAppLabeler noAppLabelers
  let attempted := isTestUser account.handle
  let cfg := if attempted then trySwitchToTestAppLabeler resolveHandle cfg else cfg
  let labelerDids : Option (List Did) := (readLabelers account.did).toOption
  let cfg := configureAdditionalModerationAuthorities additional cfg
  { appLabelers := cfg.appLabelers
    labelersHeader := labelerDids
    testResolveAttempted := attempted }

/-- Whether an XRPC call is a read (query) or a write (procedure). -/
inductive CallKind where
  | query
  | procedure
deriving DecidableEq, Repr

/-- Classified outcome of a single call attempt, per the error taxonomy. -/
inductive Outcome where
  | success
  | networkFailure
  | serverOverload
  | applicationError
  | authRejected
deriving DecidableEq, Repr

/-- Modelled from the spec: an outcome is transient (retryable for queries)
iff it is a network-level failure or a server overload/unavailability
status. -/
def Outcome.isTransient : Outcome → Bool
  | .networkFailure => true
  | .serverOverload => true
  | _ => false

/-- Modelled from the spec: the Retry Engine (not in the studied tree) retries
an attempt only when the call is a query — or a procedure whose caller
explicitly opted in — and the outcome is classified transient. -/
def shouldRetry (kind : CallKind) (optIn : Bool) (o : Outcome) : Bool :=
  (match kind with
   | .query => true
   | .procedure => optIn) && o.isTransient

/-- Modelled from the spec: the retry loop.  `attempts i` is the classified
outcome of the `i`-th attempt (0-based); `remaining` is the attempt budget
still available after the current attempt.  Returns the final outcome and the
total number of attempts made. -/
def retryLoop (kind : CallKind) (optIn : Bool) (attempts : Nat → Outcome) :
    Nat → Nat → Outcome × Nat
  | 0, idx => (attempts idx, idx + 1)
  | r + 1, idx =>
    if shouldRetry kind optIn (attempts idx) then
      retryLoop kind optIn attempts r (idx + 1)
    else (attempts idx, idx + 1)

/-- Modelled from the spec: `executeWithRetry` runs up to `maxAttempts`
attempts (at least one), retrying only per `shouldRetry`, and returns the last
classified outcome verbatim together with the number of attempts made. -/
def executeWithRetry (kind : CallKind) (optIn : Bool)
    (attempts : Nat → Outcome) (maxAttempts : Nat) : Outcome × Nat :=
  retryLoop kind optIn attempts (maxAttempts - 1) 0

/-- C1: with preferences present and no override, the resolved context takes
its labelers from the stored subscriptions, and merging them with the
additional-authorities config deduplicates by DID while preserving first-seen
order; in particular `[A, B]` merged with `[B, C]` is `[A, B, C]`. -/
theorem merged_labeler_list_dedup_first_seen (userDid : Option Did)
    (mp : ModerationPrefs) (hidden : Option (List String)) (ld : LabelDefs)
    (additional : List Did) :
    ∃ c, providerValue none userDid (some mp) hidden ld = some c ∧
      c.prefs.labelers = mp.labelers ∧
      (mergedLabelerList c.prefs.labelers additional).Nodup ∧
      List.Sublist (mergedLabelerList c.prefs.labelers additional)
        (c.prefs.labelers ++ additional) ∧
      (∀ d, d ∈ mergedLabelerList c.prefs.labelers additional ↔
        d ∈ mp.labelers ∨ d ∈ additional) ∧
      mergedLabelerList ["did:plc:a", "did:plc:b"] ["did:plc:b", "did:plc:c"]
        = ["did:plc:a", "did:plc:b", "did:plc:c"] := by
  refine ⟨_, rfl, rfl, nodup_dedupByDid _, sublist_dedupByDid _, ?_, ?_⟩
  · intro d
    rw [mergedLabelerList, mem_dedupByDid]
    simp
  · simp [mergedLabelerList, dedupByDid]

/-- C2: when the devtool override context is present, the resolver returns it
unchanged, and the result does not depend on any of the other inputs. -/
theorem override_returned_unchanged (o : ModerationOpts) (u u2 : Option Did)
    (mp mp2 : Option ModerationPrefs) (h h2 : Option (List String))
    (ld ld2 : LabelDefs) :
    providerValue (some o) u mp h ld = some o ∧
      providerValue (some o) u mp h ld = providerValue (some o) u2 mp2 h2 ld2 :=
  ⟨rfl, rfl⟩

/-- C3: with no override and absent preferences, the resolver yields the
distinguished unresolved result, which is not equal to any context value
(in particular not to an empty configuration). -/
theorem absent_prefs_unresolved (u : Option Did) (h : Option (List String))
    (ld : LabelDefs) :
    providerValue none u none h ld = none ∧
      ∀ c : ModerationOpts, providerValue none u none h ld ≠ some c :=
  ⟨rfl, fun _ hc => Option.noConfusion hc⟩

/-- C4: in guest mode the default public labeling authority is applied unless
suppressed; suppressed default plus empty additional-authority config yields
zero labelers. -/
theorem guest_default_authority (additional : List Did) :
    BSKY_LABELER_DID ∈ (configureModerationForGuest false additional).appLabelers ∧
      (configureModerationForGuest true []).appLabelers = [] := by
  constructor
  · rw [configureModerationForGuest, configureAdditionalModerationAuthorities]
    exact (mem_dedupByDid _ _).mpr (by simp [switchToBskyAppLabeler])
  · simp [configureModerationForGuest, configureAdditionalModerationAuthorities,
      switchToBskyAppLabeler, mergedLabelerList, dedupByDid]

/-- C5: for an authenticated resolve with preferences present and no override,
the labelers of the result are exactly the stored subscriptions; no default
labeling authority is forced in. -/
theorem account_labelers_opt_in (u : Did) (mp : ModerationPrefs)
    (h : Option (List String)) (ld : LabelDefs)
    (hnb : BSKY_LABELER_DID ∉ mp.labelers) :
    ∃ c, providerValue none (some u) (some mp) h ld = some c ∧
      c.prefs.labelers = mp.labelers ∧
      BSKY_LABELER_DID ∉ c.prefs.labelers :=
  ⟨_, rfl, rfl, hnb⟩

/-- C5 witness. -/
theorem account_labelers_opt_in_witness :
    ∃ c, providerValue none (some "did:plc:alice")
        (some ⟨true, [], [], [], ["did:plc:mod1"]⟩) none [] = some c ∧
      c.prefs.labelers = ["did:plc:mod1"] ∧
      BSKY_LABELER_DID ∉ c.prefs.labelers :=
  account_labelers_opt_in "did:plc:alice" ⟨true, [], [], [], ["did:plc:mod1"]⟩
    none [] (by decide)

/-- C6: test-environment mode resolves `mod-authority.test`; on success the
resolved DID becomes the sole app labeler, and on resolution failure the
previously configured authority set is left in effect. -/
theorem test_labeler_switch_behaviour (resolveHandle : String → Option Did)
    (cfg : BskyAgentConfig) (did : Did) :
    (resolveHandle "mod-authority.test" = some did →
      trySwitchToTestAppLabeler resolveHandle cfg = { appLabelers := [did] }) ∧
    (resolveHandle "mod-authority.test" = none →
      trySwitchToTestAppLabeler resolveHandle cfg = cfg) := by
  constructor <;> intro h <;> simp [trySwitchToTestAppLabeler, h]

/-- C6 witness. -/
theorem test_labeler_switch_behaviour_witness :
    trySwitchToTestAppLabeler (fun _ => some "did:plc:test")
        { appLabelers := [BSKY_LABELER_DID] } = { appLabelers := ["did:plc:test"] } ∧
    trySwitchToTestAppLabeler (fun _ => none)
        { appLabelers := [BSKY_LABELER_DID] } = { appLabelers := [BSKY_LABELER_DID] } :=
  ⟨(test_labeler_switch_behaviour (fun _ => some "did:plc:test")
      { appLabelers := [BSKY_LABELER_DID] } "did:plc:test").1 rfl,
   (test_labeler_switch_behaviour (fun _ => none)
      { appLabelers := [BSKY_LABELER_DID] } "did:plc:test").2 rfl⟩

/-- C7: with preferences present and no override, the hidden-content set of
the result equals the given input when present and is empty when the input is
absent. -/
theorem hidden_content_attached (u : Option Did) (mp : ModerationPrefs)
    (hp : List String) (ld : LabelDefs) :
    ∃ c1 c2, providerValue none u (some mp) (some hp) ld = some c1 ∧
      c1.prefs.hiddenPosts = hp ∧
      providerValue none u (some mp) none ld = some c2 ∧
      c2.prefs.hiddenPosts = [] :=
  ⟨_, _, rfl, rfl, rfl, rfl⟩

/-- C8: the Retry Engine never retries a procedure call automatically (only
when the caller opts in), and never retries an `applicationError` or
`authRejected` outcome, regardless of the remaining attempt budget. -/
theorem retry_never_procedure_or_terminal (attempts : Nat → Outcome)
    (maxAttempts remaining idx : Nat) (kind : CallKind) (optIn : Bool)
    (hterm : attempts idx = Outcome.applicationError ∨
      attempts idx = Outcome.authRejected) :
    (executeWithRetry CallKind.procedure false attempts maxAttempts).2 = 1 ∧
    retryLoop CallKind.procedure false attempts remaining idx
      = (attempts idx, idx + 1) ∧
    retryLoop kind optIn attempts remaining idx = (attempts idx, idx + 1) := by
  refine ⟨?_, ?_, ?_⟩
  · rw [executeWithRetry]
    cases maxAttempts - 1 with
    | zero => rfl
    | succ r => simp [retryLoop, shouldRetry]
  · cases remaining with
    | zero => rfl
    | succ r => simp [retryLoop, shouldRetry]
  · cases remaining with
    | zero => rfl
    | succ r =>
      rcases hterm with h | h <;>
        simp [retryLoop, shouldRetry, h, Outcome.isTransient]

/-- C8 witness. -/
theorem retry_never_procedure_or_terminal_witness :
    (executeWithRetry CallKind.procedure false
      (fun _ => Outcome.applicationError) 5).2 = 1 ∧
    retryLoop CallKind.procedure false (fun _ => Outcome.applicationError) 4 0
      = (Outcome.applicationError, 1) ∧
    retryLoop CallKind.query true (fun _ => Outcome.applicationError) 4 0
      = (Outcome.applicationError, 1) :=
  retry_never_procedure_or_terminal (fun _ => Outcome.applicationError)
    5 4 0 CallKind.query true (Or.inl rfl)

/-- C9: when reading the stored per-account labeler list fails, the failure is
swallowed: account configuration still completes with the same app labelers
and test-resolution behaviour as under any other read result, and no labelers
header is configured. -/
theorem read_labelers_failure_swallowed (isTestUser : String → Bool)
    (resolveHandle : String → Option Did)
    (rl rl2 : Did → Except String (List Did)) (na : Bool)
    (additional : List Did) (account : SessionAccount) (e : String)
    (hfail : rl account.did = Except.error e) :
    (configureModerationForAccount isTestUser resolveHandle rl na additional
        account).labelersHeader = none ∧
    (configureModerationForAccount isTestUser resolveHandle rl na additional
        account).appLabelers =
      (configureModerationForAccount isTestUser resolveHandle rl2 na additional
        account).appLabelers ∧
    (configureModerationForAccount isTestUser resolveHandle rl na additional
        account).testResolveAttempted =
      (configureModerationForAccount isTestUser resolveHandle rl2 na additional
        account).testResolveAttempted := by
  refine ⟨?_, rfl, rfl⟩
  simp [configureModerationForAccount, hfail, Except.toOption]

/-- C9 witness. -/
theorem read_labelers_failure_swallowed_witness :
    (configureModerationForAccount (fun _ => false) (fun _ => none)
        (fun _ => Except.error "storage read failed") false ["did:plc:extra"]
        ⟨"did:plc:alice", "alice.example"⟩).labelersHeader = none ∧
    (configureModerationForAccount (fun _ => false) (fun _ => none)
        (fun _ => Except.error "storage read failed") false ["did:plc:extra"]
        ⟨"did:plc:alice", "alice.example"⟩).appLabelers =
      (configureModerationForAccount (fun _ => false) (fun _ => none)
        (fun _ => Except.ok ["did:plc:mod1"]) false ["did:plc:extra"]
        ⟨"did:plc:alice", "alice.example"⟩).appLabelers ∧
    (configureModerationForAccount (fun _ => false) (fun _ => none)
        (fun _ => Except.error "storage read failed") false ["did:plc:extra"]
        ⟨"did:plc:alice", "alice.example"⟩).testResolveAttempted =
      (configureModerationForAccount (fun _ => false) (fun _ => none)
        (fun _ => Except.ok ["did:plc:mod1"]) false ["did:plc:extra"]
        ⟨"did:plc:alice", "alice.example"⟩).testResolveAttempted :=
  read_labelers_failure_swallowed (fun _ => false) (fun _ => none)
    (fun _ => Except.error "storage read failed")
    (fun _ => Except.ok ["did:plc:mod1"]) false ["did:plc:extra"]
    ⟨"did:plc:alice", "alice.example"⟩ "storage read failed" rfl

/-- C10: for an account whose handle is not a test-user handle, account
configuration never attempts to resolve the test authority handle (the result
is independent of the resolver) and the app-labeler set is the one the
default switch produced, merged with the additional authorities. -/
theorem non_test_user_skips_test_switch (isTestUser : String → Bool)
    (r1 r2 : String → Option Did) (rl : Did → Except String (List Did))
    (na : Bool) (additional : List Did) (account : SessionAccount)
    (hnt : isTestUser account.handle = false) :
    configureModerationForAccount isTestUser r1 rl na additional account =
      configureModerationForAccount isTestUser r2 rl na additional account ∧
    (configureModerationForAccount isTestUser r1 rl na additional
        account).testResolveAttempted = false ∧
    (configureModerationForAccount isTestUser r1 rl na additional
        account).appLabelers =
      (configureAdditionalModerationAuthorities additional
        (switchToBskyAppLabeler na)).appLabelers := by
  refine ⟨?_, ?_, ?_⟩ <;> simp [configureModerationForAccount, hnt]

/-- C10 witness. -/
theorem non_test_user_skips_test_switch_witness :
    configureModerationForAccount (fun _ => false) (fun _ => some "did:plc:t")
        (fun _ => Except.ok []) false [] ⟨"did:plc:alice", "alice.example"⟩ =
      configureModerationForAccount (fun _ => false) (fun _ => none)
        (fun _ => Except.ok []) false [] ⟨"did:plc:alice", "alice.example"⟩ ∧
    (configureModerationForAccount (fun _ => false) (fun _ => some "did:plc:t")
        (fun _ => Except.ok []) false [] ⟨"did:plc:alice", "alice.example"⟩
        ).testResolveAttempted = false ∧
    (configureModerationForAccount (fun _ => false) (fun _ => some "did:plc:t")
        (fun _ => Except.ok []) false [] ⟨"did:plc:alice", "alice.example"⟩
        ).appLabelers =
      (configureAdditionalModerationAuthorities []
        (switchToBskyAppLabeler false)).appLabelers :=
  non_test_user_skips_test_switch (fun _ => false) (fun _ => some "did:plc:t")
    (fun _ => none) (fun _ => Except.ok []) false []
    ⟨"did:plc:alice", "alice.example"⟩ rfl
